import Mathlib

/-!
Verification of the Arduino input-relay example (`examples/python/arduino_example.py`):
a shallow embedding of the key table, the per-key timer state machine
(`Send`, `SendUp`, `SendDown` and the release-timer callback) and the mouse
command encoder (`SendMouse`), together with proofs about the serial byte
sequences they produce.
-/

namespace ArduinoExample

/-- The abstract key identifiers appearing in the `keys_map` dictionary of
`arduino_example.py` (70 names, listed in the order of the dictionary). -/
inductive Key
  | A | B | C | D | E | F | G | H | I | J | K | L | M
  | N | O | P | Q | R | S | T | U | V | W | X | Y | Z
  | Zero | One | Two | Three | Four | Five | Six | Seven | Eight | Nine
  | F1 | F2 | F3 | F4 | F5 | F6 | F7 | F8 | F9 | F10 | F11 | F12
  | Up | Down | Left | Right | Home | End | PageUp | PageDown
  | Insert | Delete | Esc | Enter | Space
  | Ctrl | Shift | Alt
  | Tilde | Quote | Semicolon | Comma | Period | Slash
deriving DecidableEq

/-- The device key code each key is mapped to by the `keys_map` dictionary
(the dictionary values, transcribed from the source: ASCII codes for letters,
digits, Space and punctuation; hexadecimal constants for the rest). -/
def keyCode : Key → Nat
  | .A => 97 | .B => 98 | .C => 99 | .D => 100 | .E => 101 | .F => 102
  | .G => 103 | .H => 104 | .I => 105 | .J => 106 | .K => 107 | .L => 108
  | .M => 109 | .N => 110 | .O => 111 | .P => 112 | .Q => 113 | .R => 114
  | .S => 115 | .T => 116 | .U => 117 | .V => 118 | .W => 119 | .X => 120
  | .Y => 121 | .Z => 122
  | .Zero => 48 | .One => 49 | .Two => 50 | .Three => 51 | .Four => 52
  | .Five => 53 | .Six => 54 | .Seven => 55 | .Eight => 56 | .Nine => 57
  | .F1 => 0xC2 | .F2 => 0xC3 | .F3 => 0xC4 | .F4 => 0xC5 | .F5 => 0xC6
  | .F6 => 0xC7 | .F7 => 0xC8 | .F8 => 0xC9 | .F9 => 0xCA | .F10 => 0xCB
  | .F11 => 0xCC | .F12 => 0xCD
  | .Up => 0xDA | .Down => 0xD9 | .Left => 0xD8 | .Right => 0xD7
  | .Home => 0xD2 | .End => 0xD5 | .PageUp => 0xD3 | .PageDown => 0xD6
  | .Insert => 0xD1 | .Delete => 0xD4 | .Esc => 0xB1 | .Enter => 0xE0
  | .Space => 32
  | .Ctrl => 0x80 | .Shift => 0x81 | .Alt => 0x82
  | .Tilde => 96 | .Quote => 39 | .Semicolon => 59 | .Comma => 44
  | .Period => 46 | .Slash => 47

/-- Modelled from the spec: the numeric wire values of the `Key` enumeration of
the RPC schema. The generated module `input_pb2` (from `backend/proto/input.proto`)
is not under `src/`; the spec describes `Key` only as an enumerated abstract key
identifier, so we number the variants from 0 in declaration order, the numbering
scheme of a protocol-buffer enumeration. At run time a request key and a dictionary
key are both plain integers drawn from this numbering. -/
def keyVal : Key → Nat
  | .A => 0 | .B => 1 | .C => 2 | .D => 3 | .E => 4 | .F => 5
  | .G => 6 | .H => 7 | .I => 8 | .J => 9 | .K => 10 | .L => 11
  | .M => 12 | .N => 13 | .O => 14 | .P => 15 | .Q => 16 | .R => 17
  | .S => 18 | .T => 19 | .U => 20 | .V => 21 | .W => 22 | .X => 23
  | .Y => 24 | .Z => 25
  | .Zero => 26 | .One => 27 | .Two => 28 | .Three => 29 | .Four => 30
  | .Five => 31 | .Six => 32 | .Seven => 33 | .Eight => 34 | .Nine => 35
  | .F1 => 36 | .F2 => 37 | .F3 => 38 | .F4 => 39 | .F5 => 40
  | .F6 => 41 | .F7 => 42 | .F8 => 43 | .F9 => 44 | .F10 => 45
  | .F11 => 46 | .F12 => 47
  | .Up => 48 | .Down => 49 | .Left => 50 | .Right => 51
  | .Home => 52 | .End => 53 | .PageUp => 54 | .PageDown => 55
  | .Insert => 56 | .Delete => 57 | .Esc => 58 | .Enter => 59
  | .Space => 60
  | .Ctrl => 61 | .Shift => 62 | .Alt => 63
  | .Tilde => 64 | .Quote => 65 | .Semicolon => 66 | .Comma => 67
  | .Period => 68 | .Slash => 69

/-- All keys of the `keys_map` dictionary, in dictionary order. -/
def allKeys : List Key :=
  [.A, .B, .C, .D, .E, .F, .G, .H, .I, .J, .K, .L, .M,
   .N, .O, .P, .Q, .R, .S, .T, .U, .V, .W, .X, .Y, .Z,
   .Zero, .One, .Two, .Three, .Four, .Five, .Six, .Seven, .Eight, .Nine,
   .F1, .F2, .F3, .F4, .F5, .F6, .F7, .F8, .F9, .F10, .F11, .F12,
   .Up, .Down, .Left, .Right, .Home, .End, .PageUp, .PageDown,
   .Insert, .Delete, .Esc, .Enter, .Space,
   .Ctrl, .Shift, .Alt,
   .Tilde, .Quote, .Semicolon, .Comma, .Period, .Slash]

/-- The `keys_map` dictionary of the source, as an association list from the
integer value of an abstract key to its one-byte device code. -/
def keys_map : List (Nat × Nat) := allKeys.map (fun k => (keyVal k, keyCode k))

def KEY_DOWN : Nat := 1
def KEY_UP : Nat := 2
def MOUSE_MOVE : Nat := 3
def MOUSE_CLICK : Nat := 4
def MOUSE_SCROLL : Nat := 5

/-- Modelled from the spec: the numeric wire values of the `MouseAction`
enumeration of the RPC schema (also generated into `input_pb2`, not under
`src/`); the spec lists the actions as Move, Click, ScrollDown, numbered from 0
in a protocol-buffer enumeration. -/
def MouseAction.Move : Nat := 0

/-- See `MouseAction.Move`. -/
def MouseAction.Click : Nat := 1

/-- See `MouseAction.Move`. -/
def MouseAction.ScrollDown : Nat := 2

/-- Association-list lookup, mirroring a Python dictionary `get`. -/
def lookupA {α : Type} : List (Nat × α) → Nat → Option α
  | [], _ => none
  | (b, w) :: t, a => if a = b then some w else lookupA t a

/-- Association-list store, mirroring a Python dictionary assignment
(replaces an existing binding, otherwise appends). -/
def insertA {α : Type} : List (Nat × α) → Nat → α → List (Nat × α)
  | [], a, v => [(a, v)]
  | (b, w) :: t, a, v => if a = b then (a, v) :: t else (b, w) :: insertA t a v

/-- One entry of `timers_map`: a `threading.Timer` armed by `Send`, carrying the
device code its callback will release, the requested hold duration in
milliseconds (the source passes `down_ms / 1000.0` seconds to the timer), and
whether the timer thread is still alive (armed and not yet fired). -/
structure TimerEntry where
  code : Nat
  durationMs : Nat
  alive : Bool
deriving DecidableEq

/-- The `timers_map` dictionary: integer slot to timer. `Send` stores under the
resolved device code; `SendUp` and `SendDown` look up under the raw request key. -/
def TimersMap := List (Nat × TimerEntry)

/-- `timer is None or not timer.is_alive()` negated: the slot holds a live timer. -/
def timerAlive (t : TimersMap) (slot : Nat) : Bool :=
  match lookupA t slot with
  | some e => e.alive
  | none => false

/-- Failure modes surfaced to the RPC caller: a `KeyError` from `keys_map[...]`
(unknown key) or an `OverflowError` from `int.to_bytes` (delta outside int16). -/
inductive InputError
  | unknownKey
  | overflow
deriving DecidableEq

/-- The `Send` RPC handler: resolve the request key through `keys_map`
(a missing key raises `KeyError`), then, when no live timer sits at the slot of
the resolved code, write the key-down pair, arm a release timer for the
requested duration and store it under the resolved code; when a live timer sits
there, do nothing. Returns the new `timers_map` and the list of serial writes. -/
def Send (t : TimersMap) (reqKey downMs : Nat) :
    Except InputError (TimersMap × List (List Nat)) :=
  match lookupA keys_map reqKey with
  | none => .error .unknownKey
  | some code =>
    if timerAlive t code then .ok (t, [])
    else .ok (insertA t code ⟨code, downMs, true⟩, [[KEY_DOWN, code]])

/-- The `SendUp` RPC handler: look up `timers_map` under the raw request key;
when no live timer sits there, resolve the key through `keys_map` (a missing key
raises `KeyError`) and write the key-up pair; when a live timer sits there,
do nothing. The timer map is never changed. -/
def SendUp (t : TimersMap) (reqKey : Nat) :
    Except InputError (TimersMap × List (List Nat)) :=
  if timerAlive t reqKey then .ok (t, [])
  else
    match lookupA keys_map reqKey with
    | none => .error .unknownKey
    | some code => .ok (t, [[KEY_UP, code]])

/-- The `SendDown` RPC handler: like `SendUp` but writing a key-down pair. -/
def SendDown (t : TimersMap) (reqKey : Nat) :
    Except InputError (TimersMap × List (List Nat)) :=
  if timerAlive t reqKey then .ok (t, [])
  else
    match lookupA keys_map reqKey with
    | none => .error .unknownKey
    | some code => .ok (t, [[KEY_DOWN, code]])

/-- Expiry of the timer stored at `slot`: the `threading.Timer` callback writes
the key-up pair for the code the timer carries, after which the timer thread is
no longer alive. -/
def fireSlot (t : TimersMap) (slot : Nat) : TimersMap × List (List Nat) :=
  match lookupA t slot with
  | some e => (insertA t slot ⟨e.code, e.durationMs, false⟩, [[KEY_UP, e.code]])
  | none => (t, [])

/-- The two little-endian bytes of the two-complement 16-bit image of `n`
(the byte computation of Python `int.to_bytes(2, little, signed=True)`). -/
def encLE (n : Int) : List Nat :=
  [((n % 65536) % 256).toNat, ((n % 65536) / 256).toNat]

/-- Python `int.to_bytes(2, little, signed=True)`: the two little-endian bytes
when `n` fits in a signed 16-bit integer, otherwise an `OverflowError`. -/
def toBytesLE2 (n : Int) : Option (List Nat) :=
  if -32768 ≤ n ∧ n ≤ 32767 then some (encLE n) else none

/-- An observable event on the serial channel side: a `serial.write` of a byte
sequence, or a `time.sleep` of the given number of milliseconds. -/
inductive SerialEvent
  | write (bs : List Nat)
  | sleep (ms : Nat)
deriving DecidableEq

/-- The `SendMouse` RPC handler: with the cursor at `cursor` (the injected
cursor-locator capability) and the request target `(x, y)`, compute the deltas,
convert both through `int.to_bytes` (raising on int16 overflow, before any
action is dispatched), then write the event sequence of the requested action;
an action other than Move, Click, ScrollDown writes nothing. -/
def SendMouse (cursor : Int × Int) (x y : Int) (action : Nat) :
    Except InputError (List SerialEvent) :=
  match toBytesLE2 (x - cursor.1), toBytesLE2 (y - cursor.2) with
  | some dxb, some dyb =>
    if action = MouseAction.Move then
      .ok [.write (MOUSE_MOVE :: (dxb ++ dyb))]
    else if action = MouseAction.Click then
      .ok [.write (MOUSE_MOVE :: (dxb ++ dyb)), .sleep 80, .write [MOUSE_CLICK]]
    else if action = MouseAction.ScrollDown then
      .ok [.write (MOUSE_MOVE :: (dxb ++ dyb)), .sleep 80,
           .write (MOUSE_SCROLL :: (toBytesLE2 1000).getD [])]
    else .ok []
  | _, _ => .error .overflow

/-- Looking up a slot right after storing into it yields the stored value. -/
theorem lookupA_insertA_self {α : Type} (l : List (Nat × α)) (a : Nat) (v : α) :
    lookupA (insertA l a v) a = some v := by
  induction l with
  | nil => simp [insertA, lookupA]
  | cons hd tl ih =>
    obtain ⟨b, w⟩ := hd
    by_cases h : a = b <;> simp [insertA, lookupA, h, ih]

/-- Resolving the wire value of a key through the `keys_map` dictionary yields
the device code the dictionary assigns to that key. -/
theorem keys_map_lookup (k : Key) : lookupA keys_map (keyVal k) = some (keyCode k) := by
  cases k <;> rfl

/-- The `timers_map` state left by `Send(Key.A, 100)` from an empty map: one
live timer stored under slot 97, the device code of `Key.A`. -/
def st1 : TimersMap := [(97, ⟨97, 100, true⟩)]

/-- C1: the claim says an explicit `SendUp(K)` writes nothing while a release
timer armed by a prior `Send(K, d)` is live. The code diverges: `Send` stores
the timer under the resolved device code (97 for `Key.A`) while `SendUp` looks
the timer up under the raw request key (wire value 0 for `Key.A`), finds no
timer there, and writes the key-up pair at once. This theorem evaluates the
code at the failing input: `Send` from an empty map arms a live timer for
`Key.A`, yet the immediately following `SendUp` writes `[KEY_UP, 97]` instead
of nothing. (From a state with no timer at either slot, `SendUp` does write
exactly the one key-up pair, as the second half of the claim says.) -/
theorem sendUp_ignores_timer_armed_by_Send :
    Send [] (keyVal Key.A) 100 = .ok (st1, [[KEY_DOWN, keyCode Key.A]]) ∧
    timerAlive st1 (keyCode Key.A) = true ∧
    SendUp st1 (keyVal Key.A) = .ok (st1, [[KEY_UP, keyCode Key.A]]) ∧
    SendUp [] (keyVal Key.A) = .ok ([], [[KEY_UP, keyCode Key.A]]) :=
  ⟨rfl, rfl, rfl, rfl⟩

/-- C8: the first half of the claim holds (with no timer anywhere, `SendDown`
writes exactly one key-down pair and stores no timer), but the second half
fails for the same slot mismatch as C1: with the timer for `Key.A` live at
slot 97, `SendDown` looks up slot 0 (the wire value of `Key.A`), finds nothing
and writes `[KEY_DOWN, 97]` where the claim says it writes nothing. -/
theorem sendDown_ignores_timer_armed_by_Send :
    SendDown [] (keyVal Key.A) = .ok ([], [[KEY_DOWN, keyCode Key.A]]) ∧
    timerAlive st1 (keyCode Key.A) = true ∧
    SendDown st1 (keyVal Key.A) = .ok (st1, [[KEY_DOWN, keyCode Key.A]]) :=
  ⟨rfl, rfl, rfl⟩

/-- C9: with an empty timer map, all three key handlers do fail with the
unknown-key error and write nothing on an identifier outside `keys_map`
(here 97, which is no wire value of any key). But the claim fails in general:
after `Send(Key.A, 100)` the timer map holds a live timer at slot 97, and
`SendUp` on the unknown identifier 97 finds that timer, skips key resolution
entirely and acknowledges success with zero bytes instead of failing with
the unknown-key error. -/
theorem unknownKey_masked_by_live_timer :
    lookupA keys_map 97 = none ∧
    Send [] 97 50 = .error .unknownKey ∧
    SendUp ([] : TimersMap) 97 = .error .unknownKey ∧
    SendDown ([] : TimersMap) 97 = .error .unknownKey ∧
    SendUp st1 97 = .ok (st1, []) :=
  ⟨rfl, rfl, rfl, rfl, rfl⟩

/-- C2: while the release timer armed by a previous `Send(K, d)` is still live
(a live entry under the slot of the device code of `K`, as `Send` stores it),
a second `Send(K, d2)` writes nothing and returns the timer map unchanged (no
reset, no replacement, no re-emitted key-down), and expiry of the original
timer still writes the single eventual key-up pair. -/
theorem Send_noop_while_held (t : TimersMap) (k : Key) (d d2 : Nat)
    (h : lookupA t (keyCode k) = some ⟨keyCode k, d, true⟩) :
    Send t (keyVal k) d2 = .ok (t, []) ∧
    fireSlot t (keyCode k) =
      (insertA t (keyCode k) ⟨keyCode k, d, false⟩, [[KEY_UP, keyCode k]]) := by
  have halive : timerAlive t (keyCode k) = true := by
    simp [timerAlive, h]
  constructor
  · simp [Send, keys_map_lookup, halive]
  · simp [fireSlot, h]

/-- Witness for C2 at `Key.A`: from the state left by `Send(Key.A, 100)`, a
second `Send(Key.A, 50)` writes nothing and leaves the state unchanged. -/
theorem Send_noop_while_held_witness :
    lookupA st1 (keyCode Key.A) = some ⟨keyCode Key.A, 100, true⟩ ∧
    (Send st1 (keyVal Key.A) 50 = .ok (st1, []) ∧
     fireSlot st1 (keyCode Key.A) =
       (insertA st1 (keyCode Key.A) ⟨keyCode Key.A, 100, false⟩,
        [[KEY_UP, keyCode Key.A]])) :=
  ⟨rfl, Send_noop_while_held st1 Key.A 100 50 rfl⟩

/-- C3: when no live timer sits under the device code of `K`, `Send(K, d)`
writes exactly the one key-down pair `[KEY_DOWN, code K]` at call time and
stores one live timer carrying the code and the requested duration `d` in
milliseconds (the source hands the timer `d / 1000` seconds); expiry of that
timer writes exactly the one key-up pair `[KEY_UP, code K]` and leaves the
timer dead. Real elapsed time is outside the model; the armed duration is the
requested one. -/
theorem Send_arms_timer_then_single_release (t : TimersMap) (k : Key) (d : Nat)
    (h : timerAlive t (keyCode k) = false) :
    Send t (keyVal k) d =
      .ok (insertA t (keyCode k) ⟨keyCode k, d, true⟩, [[KEY_DOWN, keyCode k]]) ∧
    timerAlive (insertA t (keyCode k) ⟨keyCode k, d, true⟩) (keyCode k) = true ∧
    fireSlot (insertA t (keyCode k) ⟨keyCode k, d, true⟩) (keyCode k) =
      (insertA (insertA t (keyCode k) ⟨keyCode k, d, true⟩) (keyCode k)
         ⟨keyCode k, d, false⟩,
       [[KEY_UP, keyCode k]]) := by
  refine ⟨?_, ?_, ?_⟩
  · simp [Send, keys_map_lookup, h]
  · simp [timerAlive, lookupA_insertA_self]
  · simp [fireSlot, lookupA_insertA_self]

/-- Witness for C3 at `Key.A`, duration 100, from the empty timer map. -/
theorem Send_arms_timer_then_single_release_witness :
    timerAlive ([] : TimersMap) (keyCode Key.A) = false ∧
    (Send [] (keyVal Key.A) 100 =
       .ok (insertA [] (keyCode Key.A) ⟨keyCode Key.A, 100, true⟩,
            [[KEY_DOWN, keyCode Key.A]]) ∧
     timerAlive (insertA [] (keyCode Key.A) ⟨keyCode Key.A, 100, true⟩)
       (keyCode Key.A) = true ∧
     fireSlot (insertA [] (keyCode Key.A) ⟨keyCode Key.A, 100, true⟩)
       (keyCode Key.A) =
       (insertA (insertA [] (keyCode Key.A) ⟨keyCode Key.A, 100, true⟩)
          (keyCode Key.A) ⟨keyCode Key.A, 100, false⟩,
        [[KEY_UP, keyCode Key.A]])) :=
  ⟨rfl, Send_arms_timer_then_single_release [] Key.A 100 rfl⟩

/-- C7: the concrete move scenario: cursor at (500, 400), target (683, 384),
action Move. The handler writes exactly the five bytes: opcode 3, dx = 183 as
0xB7 0x00 little-endian, dy = -16 as 0xF0 0xFF little-endian. -/
theorem sendMouse_move_scenario :
    SendMouse (500, 400) 683 384 MouseAction.Move =
      .ok [.write [3, 0xB7, 0x00, 0xF0, 0xFF]] :=
  rfl

/-- C4 counterexample: the claim says the key table has exactly 76 entries and
maps punctuation keys into the 0x80–0xE0 range; the table transcribed from the
source has exactly 70 entries, and the tilde key carries the ASCII code 0x60,
below 0x80. -/
theorem keys_map_size_and_range_cex :
    keys_map.length = 70 ∧ keys_map.length ≠ 76 ∧
    keyCode Key.Tilde = 0x60 ∧ ¬ (0x80 ≤ keyCode Key.Tilde) :=
  ⟨rfl, by decide, rfl, by decide⟩

/-- C4 amended: the key table has exactly 70 entries, one per variant of the
embedded `Key` enumeration (total, each key resolving to exactly one one-byte
code); letters carry their ASCII lowercase codes, digits their ASCII digit
codes, the function, navigation (other than Space), and modifier keys carry
constants in the 0x80–0xE0 range, while Space and the six punctuation keys
carry their ASCII codes below 0x80. The explicit code column pins every entry. -/
theorem keys_map_contents :
    keys_map.length = 70 ∧
    (∀ k : Key, lookupA keys_map (keyVal k) = some (keyCode k)) ∧
    (∀ k : Key, keyCode k < 256) ∧
    allKeys.map keyCode =
      [97, 98, 99, 100, 101, 102, 103, 104, 105, 106, 107, 108, 109,
       110, 111, 112, 113, 114, 115, 116, 117, 118, 119, 120, 121, 122,
       48, 49, 50, 51, 52, 53, 54, 55, 56, 57,
       0xC2, 0xC3, 0xC4, 0xC5, 0xC6, 0xC7, 0xC8, 0xC9, 0xCA, 0xCB, 0xCC, 0xCD,
       0xDA, 0xD9, 0xD8, 0xD7, 0xD2, 0xD5, 0xD3, 0xD6,
       0xD1, 0xD4, 0xB1, 0xE0, 32,
       0x80, 0x81, 0x82,
       96, 39, 59, 44, 46, 47] := by
  refine ⟨rfl, keys_map_lookup, ?_, rfl⟩
  intro k
  cases k <;> decide

/-- In-range conversion: `int.to_bytes` yields the two little-endian bytes. -/
theorem toBytesLE2_pos {n : Int} (h : -32768 ≤ n ∧ n ≤ 32767) :
    toBytesLE2 n = some (encLE n) := by
  simp only [toBytesLE2]
  exact if_pos h

/-- Out-of-range conversion: `int.to_bytes` raises an `OverflowError`. -/
theorem toBytesLE2_neg {n : Int} (h : ¬ (-32768 ≤ n ∧ n ≤ 32767)) :
    toBytesLE2 n = none := by
  simp only [toBytesLE2]
  exact if_neg h

/-- C5 counterexample: the claim says an overflowing delta is saturated to the
int16 range and the call still succeeds; with the cursor at (0, 0) and target
(40000, 0) the true delta 40000 exceeds 32767, and the call fails with the
overflow error instead of emitting the nearest representable value. -/
theorem mouse_saturation_cex :
    (32767 : Int) < 40000 - 0 ∧
    SendMouse (0, 0) 40000 0 MouseAction.Move = .error .overflow :=
  ⟨by decide, rfl⟩

/-- C5 amended: for every cursor `(cx, cy)` and target `(tx, ty)`, when both
differences fit the signed 16-bit range the encoded delta pair equals exactly
`(tx - cx, ty - cy)` in two-complement little-endian form; when either
difference overflows, the call fails with an overflow error before writing any
bytes — there is no saturation. -/
theorem sendMouse_move_delta_encoding (cx cy tx ty : Int) :
    SendMouse (cx, cy) tx ty MouseAction.Move =
      if (-32768 ≤ tx - cx ∧ tx - cx ≤ 32767) ∧
         (-32768 ≤ ty - cy ∧ ty - cy ≤ 32767) then
        .ok [.write (MOUSE_MOVE :: (encLE (tx - cx) ++ encLE (ty - cy)))]
      else .error .overflow := by
  by_cases hx : -32768 ≤ tx - cx ∧ tx - cx ≤ 32767 <;>
    by_cases hy : -32768 ≤ ty - cy ∧ ty - cy ≤ 32767
  · rw [if_pos ⟨hx, hy⟩]
    simp only [SendMouse, toBytesLE2_pos hx, toBytesLE2_pos hy,
               eq_self_iff_true, if_true]
  · rw [if_neg (fun h => hy h.2)]
    simp only [SendMouse, toBytesLE2_pos hx, toBytesLE2_neg hy]
  · rw [if_neg (fun h => hx h.1)]
    simp only [SendMouse, toBytesLE2_neg hx, toBytesLE2_pos hy]
  · rw [if_neg (fun h => hx h.1)]
    simp only [SendMouse, toBytesLE2_neg hx, toBytesLE2_neg hy]

/-- Witness for C5 at cursor (500, 400), target (683, 384): the in-range
branch evaluates to the exact encoded deltas. -/
theorem sendMouse_move_delta_encoding_witness :
    SendMouse (500, 400) 683 384 MouseAction.Move =
      .ok [.write (MOUSE_MOVE :: (encLE (683 - 500) ++ encLE (384 - 400)))] :=
  (sendMouse_move_delta_encoding 500 400 683 384).trans (if_pos (by decide))

/-- C6 counterexample: the claim says every Click request writes the move
bytes and then the click opcode (and every ScrollDown request the move bytes
and then the scroll payload); a request whose delta overflows int16 fails with
the overflow error and writes nothing. -/
theorem mouse_click_overflow_cex :
    SendMouse (0, 0) 40000 0 MouseAction.Click = .error .overflow ∧
    SendMouse (0, 0) 40000 0 MouseAction.ScrollDown = .error .overflow :=
  ⟨rfl, rfl⟩

/-- C6 amended: whenever both deltas fit int16, a Click request produces
exactly the five-byte move write, the 80 ms settle sleep, then the single
click opcode byte; a ScrollDown request produces the same move write, the same
sleep, then the scroll opcode followed by the little-endian signed 16-bit
encoding of 1000. The move write strictly precedes the click or scroll write. -/
theorem sendMouse_click_scroll_sequence (cx cy tx ty : Int)
    (hx : -32768 ≤ tx - cx ∧ tx - cx ≤ 32767)
    (hy : -32768 ≤ ty - cy ∧ ty - cy ≤ 32767) :
    SendMouse (cx, cy) tx ty MouseAction.Click =
      .ok [.write (MOUSE_MOVE :: (encLE (tx - cx) ++ encLE (ty - cy))),
           .sleep 80, .write [MOUSE_CLICK]] ∧
    SendMouse (cx, cy) tx ty MouseAction.ScrollDown =
      .ok [.write (MOUSE_MOVE :: (encLE (tx - cx) ++ encLE (ty - cy))),
           .sleep 80, .write (MOUSE_SCROLL :: encLE 1000)] := by
  have ex : toBytesLE2 (tx - cx) = some (encLE (tx - cx)) := by
    simp only [toBytesLE2]
    exact if_pos hx
  have ey : toBytesLE2 (ty - cy) = some (encLE (ty - cy)) := by
    simp only [toBytesLE2]
    exact if_pos hy
  have es : toBytesLE2 1000 = some (encLE 1000) := rfl
  constructor <;>
    simp [SendMouse, ex, ey, es,
          MouseAction.Move, MouseAction.Click, MouseAction.ScrollDown]

/-- Witness for C6 at cursor (500, 400), target (683, 384). -/
theorem sendMouse_click_scroll_sequence_witness :
    ((-32768 : Int) ≤ 683 - 500 ∧ (683 : Int) - 500 ≤ 32767) ∧
    ((-32768 : Int) ≤ 384 - 400 ∧ (384 : Int) - 400 ≤ 32767) ∧
    (SendMouse (500, 400) 683 384 MouseAction.Click =
       .ok [.write (MOUSE_MOVE :: (encLE (683 - 500) ++ encLE (384 - 400))),
            .sleep 80, .write [MOUSE_CLICK]] ∧
     SendMouse (500, 400) 683 384 MouseAction.ScrollDown =
       .ok [.write (MOUSE_MOVE :: (encLE (683 - 500) ++ encLE (384 - 400))),
            .sleep 80, .write (MOUSE_SCROLL :: encLE 1000)]) :=
  ⟨by decide, by decide,
   sendMouse_click_scroll_sequence 500 400 683 384 (by decide) (by decide)⟩

/-- C10 counterexample: the claim says a request with an action outside Move,
Click, ScrollDown always returns a normal acknowledgment with zero bytes; the
delta conversion runs before the action dispatch, so with an overflowing delta
the call fails with the overflow error even for an unrecognised action. -/
theorem mouse_other_action_overflow_cex :
    (9 ≠ MouseAction.Move ∧ 9 ≠ MouseAction.Click ∧ 9 ≠ MouseAction.ScrollDown) ∧
    SendMouse (0, 0) 40000 0 9 = .error .overflow :=
  ⟨by decide, rfl⟩

/-- C10 amended: for every request whose action is none of Move, Click,
ScrollDown, the call writes nothing and returns a normal acknowledgment
whenever both deltas fit int16; when either delta overflows, the call fails
with the overflow error (still with zero bytes), regardless of the action. -/
theorem sendMouse_other_action_noop (cx cy tx ty : Int) (a : Nat)
    (h0 : a ≠ MouseAction.Move) (h1 : a ≠ MouseAction.Click)
    (h2 : a ≠ MouseAction.ScrollDown) :
    SendMouse (cx, cy) tx ty a =
      if (-32768 ≤ tx - cx ∧ tx - cx ≤ 32767) ∧
         (-32768 ≤ ty - cy ∧ ty - cy ≤ 32767) then
        .ok [] else .error .overflow := by
  by_cases hx : -32768 ≤ tx - cx ∧ tx - cx ≤ 32767 <;>
    by_cases hy : -32768 ≤ ty - cy ∧ ty - cy ≤ 32767
  · rw [if_pos ⟨hx, hy⟩]
    simp only [SendMouse, toBytesLE2_pos hx, toBytesLE2_pos hy]
    rw [if_neg h0, if_neg h1, if_neg h2]
  · rw [if_neg (fun h => hy h.2)]
    simp only [SendMouse, toBytesLE2_pos hx, toBytesLE2_neg hy]
  · rw [if_neg (fun h => hx h.1)]
    simp only [SendMouse, toBytesLE2_neg hx, toBytesLE2_pos hy]
  · rw [if_neg (fun h => hx h.1)]
    simp only [SendMouse, toBytesLE2_neg hx, toBytesLE2_neg hy]

/-- Witness for C10: action 9, cursor (0, 0), target (7, 5): a normal
acknowledgment and no serial events. -/
theorem sendMouse_other_action_noop_witness :
    (9 ≠ MouseAction.Move ∧ 9 ≠ MouseAction.Click ∧ 9 ≠ MouseAction.ScrollDown) ∧
    SendMouse (0, 0) 7 5 9 = .ok [] :=
  ⟨by decide,
   (sendMouse_other_action_noop 0 0 7 5 9 (by decide) (by decide) (by decide)).trans
     (if_pos (by decide))⟩

end ArduinoExample
